import Mathlib

/-!
Verification of the gooseboy build-and-package pipeline (src/src/main.rs)
against its natural-language specification.

Modelling conventions:
* Filesystem paths (Rust `PathBuf`) are lists of path components (`FPath`).
  `Path::join` with a plain file name appends a component, `PathBuf::pop` /
  `Path::parent` drop the last component.  Relative components other than a
  trailing `..` (which `Path::file_name` treats specially) and root-path
  corner cases are outside the modelled domain.
* Rust functions returning `anyhow::Result` are modelled with `Outcome`:
  `.ok` for `Ok`, `.error` for a returned `Err`, and `.panic` for a process
  abort via `unwrap` / `expect` (which in Rust is not a returned error).
* The toolchain metadata JSON document is modelled by typed records with
  `Option` fields standing for the dynamic `as_str`/`as_array` accesses that
  can fail on a malformed document.
* The filesystem is a finite map from paths to file data plus a set of
  directories; external effects (spawning `cargo`, `HOME`, the current
  directory, `fs::canonicalize`) live in an `Env` record.
-/

/-- A filesystem path as a list of components (model of Rust `PathBuf`). -/
abbrev FPath := List String

/-- `Path::join` with a single plain component. -/
def pathJoin (p : FPath) (c : String) : FPath := p ++ [c]

/-- `Path::parent`: drop the final component; `none` on an empty path. -/
def pathParent (p : FPath) : Option FPath :=
  if p.isEmpty then none else some p.dropLast

/-- `Path::file_name`: the final component, or `none` when the path
terminates in `..` (per the documented behaviour) or is empty. -/
def fileName (p : FPath) : Option String :=
  p.getLast?.bind fun s => if s = ".." then none else some s

/-- Split a character list at `/` (helper for `strToPath`). -/
def splitSlash : List Char → List (List Char)
  | [] => [[]]
  | c :: cs =>
    let r := splitSlash cs
    if c = '/' then [] :: r
    else
      match r with
      | [] => [[c]]
      | h :: t => (c :: h) :: t

/-- `PathBuf::from` on a string argument: split it into components. -/
def strToPath (s : String) : FPath := (splitSlash s.data).map String.mk

/-- Result of running a piece of the Rust program: a returned `Ok` value,
a returned `anyhow` error, or a process abort via `unwrap`/`expect`. -/
inductive Outcome (α : Type) where
  | ok : α → Outcome α
  | error : String → Outcome α
  | panic : String → Outcome α
  deriving DecidableEq, Repr

/-- One element of the `packages` array of the cargo metadata document.
The fields model the dynamic accesses `p["name"].as_str()` and
`p["manifest_path"].as_str()`, which yield `None` on a malformed record. -/
structure PackageRecord where
  name : Option String
  manifest_path : Option FPath
  deriving DecidableEq, Repr

/-- The cargo metadata document.  `packages` models
`metadata["packages"].as_array()` and `target_directory` models
`metadata["target_directory"].as_str()` (as a parsed path). -/
structure Metadata where
  packages : Option (List PackageRecord)
  target_directory : Option FPath
  deriving DecidableEq, Repr

/-- Raw result of `Command::output()` when the process could be spawned:
the stdout bytes decoded as UTF-8 (`none` on invalid UTF-8) and the exit
status.  Note the program never reads `exit_success`. -/
structure SpawnOutput where
  stdout_utf8 : Option String
  exit_success : Bool
  deriving DecidableEq, Repr

/-- `get_cargo_metadata` (main.rs:73-80).  `spawn` is the result of
`Command::output()` (`none` when the process cannot be started, making `?`
propagate an error); `parse` is `serde_json::from_str`.  The stdout UTF-8
decoding and the JSON parse are both `unwrap`ed, i.e. they panic. -/
def get_cargo_metadata (spawn : Option SpawnOutput) (parse : String → Option Metadata) :
    Outcome Metadata :=
  match spawn with
  | none => .error "failed to run cargo metadata"
  | some out =>
    match out.stdout_utf8 with
    | none => .panic "stdout utf8 unwrap"
    | some s =>
      match parse s with
      | none => .panic "serde json unwrap"
      | some m => .ok m

/-- `resolve_project_dir` (main.rs:131-154).  The metadata document the
function fetches via `get_cargo_metadata` is passed in explicitly.  With a
package name it matches on `name`; without one it compares
`manifest_path` to `search_root/Cargo.toml` by raw string equality.  In
either case a failed lookup falls back to `search_root/Cargo.toml`, and
the result is the parent of the chosen manifest path. -/
def resolve_project_dir (path : FPath) (package_name : Option String)
    (metadata : Metadata) : Outcome FPath :=
  let manifest : FPath :=
    (match package_name with
     | some name =>
       ((metadata.packages.getD []).find? (fun p => decide (p.name = some name))).bind
         (fun (p : PackageRecord) => p.manifest_path)
     | none =>
       let candidate := pathJoin path "Cargo.toml"
       ((metadata.packages.getD []).find? (fun p =>
           decide (p.manifest_path = some candidate))).bind
         (fun (p : PackageRecord) => p.manifest_path) : Option FPath
    ).getD (pathJoin path "Cargo.toml")
  match pathParent manifest with
  | none => .panic "parent unwrap"
  | some d => .ok d

/-- Contents of one file: plain bytes, or a finalized zip archive given by
its ordered list of entries (entry name, entry bytes).  The byte-level
encoding of a finalized archive is not modelled, so a finalized archive
cannot be re-read as plain bytes. -/
inductive FileData where
  | raw : List Nat → FileData
  | zipArchive : List (String × List Nat) → FileData
  deriving DecidableEq, Repr

/-- The plain bytes of a file, if it is a plain-bytes file. -/
def FileData.asBytes : FileData → Option (List Nat)
  | .raw b => some b
  | .zipArchive _ => none

/-- The filesystem: a finite map from paths to file contents plus the set
of existing directories. -/
structure FS where
  files : List (FPath × FileData)
  dirs : List FPath
  deriving DecidableEq, Repr

/-- Read a file's contents (`File::open` + `read_to_end`), `none` when no
file exists at the path. -/
def FS.read (fs : FS) (p : FPath) : Option FileData :=
  (fs.files.find? (fun e => decide (e.1 = p))).map Prod.snd

/-- Create or truncate-and-overwrite the file at `p` (`File::create` /
finishing a write). -/
def FS.write (fs : FS) (p : FPath) (d : FileData) : FS :=
  ⟨(p, d) :: fs.files.filter (fun e => decide (e.1 ≠ p)), fs.dirs⟩

/-- All the ancestor prefixes of a path, the path itself included. -/
def prefixesOf (p : FPath) : List FPath :=
  (List.range (p.length + 1)).map (fun i => p.take i)

/-- `fs::create_dir_all`: create the directory and all missing ancestors. -/
def FS.mkdirAll (fs : FS) (p : FPath) : FS :=
  ⟨fs.files, prefixesOf p ++ fs.dirs⟩

/-- `Path::exists`: a file or a directory is present at the path. -/
def FS.existsPath (fs : FS) (p : FPath) : Bool :=
  (fs.read p).isSome || fs.dirs.contains p

/-- The ambient effects the program consults: filesystem existence checks,
`fs::canonicalize` (`none` = the OS call fails), the current working
directory, the result of spawning `cargo metadata`, the `serde_json`
parser, the external `cargo build` invocation, and the `HOME` variable. -/
structure Env where
  pathExists : FPath → Bool
  canon : FPath → Option FPath
  cwd : Option FPath
  spawn : Option SpawnOutput
  parse : String → Option Metadata
  build : FPath → Bool → Outcome Unit
  home : Option String

/-- The metadata document the program obtains by `get_cargo_metadata`;
the query is deterministic, so each of the repeated fetches inside one
command yields this same outcome. -/
def Env.metadataFetch (env : Env) : Outcome Metadata :=
  get_cargo_metadata env.spawn env.parse

/-- The hardcoded target triple `TARGET` (main.rs:41). -/
def TARGET : String := "wasm32-unknown-unknown"

/-- The output subdirectory name chosen from the `release` flag. -/
def profileName (release : Bool) : String :=
  if release then "release" else "debug"

/-- `get_target_directory` (main.rs:82-84): `as_str().unwrap()` panics on
a document without a string `target_directory`. -/
def get_target_directory (metadata : Metadata) : Outcome FPath :=
  match metadata.target_directory with
  | none => .panic "target directory unwrap"
  | some t => .ok t

/-- `get_project_name` (main.rs:86-111): match the record whose
`manifest_path`, canonicalized, equals the canonicalized (with fallback to
the raw path) `path/Cargo.toml`; when canonicalizing the record's path
fails, compare it raw.  The lookup and the `name` access panic via
`expect` on failure. -/
def get_project_name (env : Env) (path : FPath) (metadata : Metadata) :
    Outcome String :=
  let manifest := pathJoin path "Cargo.toml"
  let manifest_abs := (env.canon manifest).getD manifest
  match metadata.packages with
  | none => .panic "packages as array unwrap"
  | some arr =>
    match arr.find? (fun p =>
        match p.manifest_path with
        | some m =>
          match env.canon m with
          | some pkg_abs => decide (pkg_abs = manifest_abs)
          | none => decide (m = manifest)
        | none => false) with
    | none => .panic "package not found"
    | some pkg =>
      match pkg.name with
      | none => .panic "failed to cast project name to a string"
      | some n => .ok n

/-- `get_wasm_path` (main.rs:113-129): the artifact filename
`{package_name}.wasm` and its full path
`{target_directory}/{TARGET}/{profile}/{filename}`. -/
def get_wasm_path (env : Env) (path : FPath) (release : Bool)
    (metadata : Metadata) : Outcome (String × FPath) :=
  let profile := profileName release
  match get_project_name env path metadata with
  | .error e => .error e
  | .panic e => .panic e
  | .ok project_name =>
    let filename := project_name ++ ".wasm"
    match get_target_directory metadata with
    | .error e => .error e
    | .panic e => .panic e
    | .ok target_directory =>
      .ok (filename, pathJoin (pathJoin (pathJoin target_directory TARGET) profile) filename)

/-- `resolve_path_and_package` (main.rs:156-170): an existing path argument
is canonicalized and used as the directory with no package name; a
non-path argument becomes the package name with the canonicalized current
directory as search root; no argument gives the current directory. -/
def resolve_path_and_package (env : Env) (arg : Option String) :
    Outcome (FPath × Option String) :=
  match arg with
  | some a =>
    let p := strToPath a
    if env.pathExists p then
      match env.canon p with
      | none => .error "canonicalize failed"
      | some abs => .ok (abs, none)
    else
      match env.cwd with
      | none => .error "current dir failed"
      | some c =>
        match env.canon c with
        | none => .error "canonicalize failed"
        | some cwd => .ok (cwd, some a)
  | none =>
    match env.cwd with
    | none => .error "current dir failed"
    | some c =>
      match env.canon c with
      | none => .error "canonicalize failed"
      | some cwd => .ok (cwd, none)

/-- `get_gooseboy_crates_folder` (main.rs:172-181): `HOME/.gooseboy`,
created with all ancestors on first use. -/
def get_gooseboy_crates_folder (env : Env) (fs : FS) : Outcome FPath × FS :=
  match env.home with
  | none => (.error "HOME not set", fs)
  | some h =>
    let folder := pathJoin (strToPath h) ".gooseboy"
    if fs.existsPath folder then (.ok folder, fs)
    else (.ok folder, fs.mkdirAll folder)

/-- `determine_path` (main.rs:43-45). -/
def determine_path (path : Option String) (default : FPath) : FPath :=
  match path with
  | some s => strToPath s
  | none => default

/-- `pack_crate` (main.rs:199-235): fetch metadata, locate the artifact,
create (truncating) the archive file next to it, then buffer the artifact
bytes and the verbatim `project_dir/crate.json` bytes as the two entries
and finalize the archive.  The archive file is created before the artifact
is opened, and both `File::open` calls panic via `expect` when the file is
missing. -/
def pack_crate (env : Env) (fs : FS) (path : FPath) (release : Bool) :
    Outcome FPath × FS :=
  match env.metadataFetch with
  | .error e => (.error e, fs)
  | .panic e => (.panic e, fs)
  | .ok metadata =>
    match get_wasm_path env path release metadata with
    | .error e => (.error e, fs)
    | .panic e => (.panic e, fs)
    | .ok fw =>
      let filename := fw.1
      let wasm_src := fw.2
      let src := wasm_src.dropLast
      match get_project_name env path metadata with
      | .error e => (.error e, fs)
      | .panic e => (.panic e, fs)
      | .ok pname =>
        let crate_path := pathJoin src (pname ++ ".gbcrate")
        let fs1 := fs.write crate_path (.raw [])
        match (fs1.read wasm_src).bind FileData.asBytes with
        | none => (.panic "cant open wasm file", fs1)
        | some wasmBytes =>
          match (fs1.read (pathJoin path "crate.json")).bind FileData.asBytes with
          | none => (.panic "cant open crate json file", fs1)
          | some manifestBytes =>
            (.ok crate_path,
             fs1.write crate_path (.zipArchive [(filename, wasmBytes), ("crate.json", manifestBytes)]))

/-- `copy_crate` (main.rs:237-250): compute the destination file path from
the archive's file name (`unwrap` panics when there is none), check the
archive exists, create the destination directory chain, copy the bytes. -/
def copy_crate (fs : FS) (crate_path : FPath) (destination_path : FPath) :
    Outcome Unit × FS :=
  match fileName crate_path with
  | none => (.panic "file name unwrap", fs)
  | some f =>
    let dst := pathJoin destination_path f
    if fs.existsPath crate_path then
      match pathParent dst with
      | none => (.panic "parent unwrap", fs)
      | some pdir =>
        let fs1 := fs.mkdirAll pdir
        match fs1.read crate_path with
        | none => (.error "copy failed", fs1)
        | some d => (.ok (), fs1.write dst d)
    else (.error "crate not found", fs)

/-- The resolution pipeline shared by both subcommands (main.rs:259-260
and 269-270): `resolve_path_and_package` followed by
`resolve_project_dir` (whose metadata fetch is `env.metadataFetch`). -/
def resolve_full (env : Env) (arg : Option String) :
    Outcome (FPath × Option String) :=
  match resolve_path_and_package env arg with
  | .error e => .error e
  | .panic e => .panic e
  | .ok pp =>
    match env.metadataFetch with
    | .error e => .error e
    | .panic e => .panic e
    | .ok metadata =>
      match resolve_project_dir pp.1 pp.2 metadata with
      | .error e => .error e
      | .panic e => .panic e
      | .ok dir => .ok (dir, pp.2)

/-- The `build` subcommand handler (main.rs:258-262): resolve, then invoke
the external toolchain build. -/
def run_build (env : Env) (release : Bool) (package : Option String) :
    Outcome Unit :=
  match resolve_full env package with
  | .error e => .error e
  | .panic e => .panic e
  | .ok rp => env.build rp.1 release

/-- The `pack` subcommand handler (main.rs:263-283): resolve, build, and
unless `no_copy` is set, pack the crate and install it into the
destination (the explicit one, or `HOME/.gooseboy`, whose lookup is
`expect`ed). -/
def run_pack (env : Env) (fs : FS) (release : Bool) (no_copy : Bool)
    (package : Option String) (destination_path : Option String) :
    Outcome Unit × FS :=
  match resolve_full env package with
  | .error e => (.error e, fs)
  | .panic e => (.panic e, fs)
  | .ok rp =>
    match env.build rp.1 release with
    | .error e => (.error e, fs)
    | .panic e => (.panic e, fs)
    | .ok _ =>
      if no_copy then (.ok (), fs)
      else
        match pack_crate env fs rp.1 release with
        | (.error e, fs1) => (.error e, fs1)
        | (.panic e, fs1) => (.panic e, fs1)
        | (.ok crate_path, fs1) =>
          match get_gooseboy_crates_folder env fs1 with
          | (.error _, fs2) => (.panic "failed to get gooseboy crates folder", fs2)
          | (.panic e, fs2) => (.panic e, fs2)
          | (.ok folder, fs2) =>
            copy_crate fs2 crate_path (determine_path destination_path folder)

/-- Modelled from the spec (section 4.2 step 5, no-package-name case), for
comparison with `resolve_project_dir`: select the record whose
`manifest_path` after canonicalization of both sides equals
`search_root/Cargo.toml`, comparing raw when canonicalization fails on
either side; the project directory is the parent of the matched manifest
path, with `search_root/Cargo.toml` as fallback. -/
def resolve_project_dir_spec (env : Env) (path : FPath) (metadata : Metadata) :
    Outcome FPath :=
  let candidate := pathJoin path "Cargo.toml"
  match (metadata.packages.getD []).find? (fun p =>
      match p.manifest_path with
      | none => false
      | some m =>
        match env.canon m, env.canon candidate with
        | some cm, some cc => decide (cm = cc)
        | _, _ => decide (m = candidate)) with
  | some p =>
    match p.manifest_path.bind pathParent with
    | some d => .ok d
    | none => .error "no parent"
  | none =>
    match pathParent candidate with
    | some d => .ok d
    | none => .error "no parent"

example : strToPath "a/b" = ["a", "b"] := by decide
example : strToPath "/ws" = ["", "ws"] := by decide
example :
    resolve_project_dir ["", "ws"] (some "bar")
      ⟨some [⟨some "foo", some ["", "ws", "foo", "Cargo.toml"]⟩], none⟩ =
    .ok ["", "ws"] := by decide
example :
    resolve_project_dir ["", "ws"] (some "foo")
      ⟨some [⟨some "foo", some ["", "ws", "foo", "Cargo.toml"]⟩], none⟩ =
    .ok ["", "ws", "foo"] := by decide

/-- A concrete metadata document used by the evaluation checks and the
witnesses: one package `foo` at `/proj/Cargo.toml`, target dir `/t`. -/
def sampleMeta : Metadata :=
  ⟨some [⟨some "foo", some ["", "proj", "Cargo.toml"]⟩], some ["", "t"]⟩

/-- A concrete environment used by the evaluation checks and the
witnesses: canonicalization is the identity, the metadata fetch succeeds
with `sampleMeta`, and building succeeds. -/
def sampleEnv : Env :=
  { pathExists := fun p => decide (p = ["proj"])
    canon := fun p => some p
    cwd := some ["", "cwd"]
    spawn := some ⟨some "metadata json", true⟩
    parse := fun _ => some sampleMeta
    build := fun _ _ => .ok ()
    home := some "/home/u" }

/-- A concrete filesystem holding the compiled artifact (debug profile)
and the project manifest for package `foo`. -/
def sampleFS : FS :=
  ⟨[(["", "t", "wasm32-unknown-unknown", "debug", "foo.wasm"], .raw [1, 2]),
    (["", "proj", "crate.json"], .raw [3])], []⟩

example : sampleEnv.metadataFetch = .ok sampleMeta := rfl
example : get_project_name sampleEnv ["", "proj"] sampleMeta = .ok "foo" := by decide
example :
    get_wasm_path sampleEnv ["", "proj"] false sampleMeta =
      .ok ("foo.wasm", ["", "t", "wasm32-unknown-unknown", "debug", "foo.wasm"]) := by decide
example :
    (pack_crate sampleEnv sampleFS ["", "proj"] false).1 =
      .ok ["", "t", "wasm32-unknown-unknown", "debug", "foo.gbcrate"] := by decide
example :
    (pack_crate sampleEnv sampleFS ["", "proj"] false).2.read
        ["", "t", "wasm32-unknown-unknown", "debug", "foo.gbcrate"] =
      some (.zipArchive [("foo.wasm", [1, 2]), ("crate.json", [3])]) := by decide
example :
    copy_crate sampleFS ["x.gbcrate"] ["d"] = (.error "crate not found", sampleFS) := by decide
example :
    (copy_crate sampleFS ["", "proj", "crate.json"] ["d", "e"]).2.read
        ["d", "e", "crate.json"] = some (.raw [3]) := by decide

/-! ### Helper lemmas about the filesystem and path model -/

theorem find?_filter_of_imp {α : Type} (l : List α) (pred keep : α → Bool)
    (h : ∀ x, pred x = true → keep x = true) :
    (l.filter keep).find? pred = l.find? pred := by
  induction l with
  | nil => rfl
  | cons a t ih =>
    by_cases hk : keep a = true
    · rw [List.filter_cons_of_pos hk]
      by_cases hp : pred a = true
      · rw [List.find?_cons_of_pos _ hp, List.find?_cons_of_pos _ hp]
      · rw [List.find?_cons_of_neg _ hp, List.find?_cons_of_neg _ hp, ih]
    · have hp : pred a = false := by
        cases hpa : pred a
        · rfl
        · exact absurd (h a hpa) hk
      rw [List.filter_cons_of_neg hk, ih]
      rw [List.find?_cons_of_neg _ (by simp [hp])]

theorem FS.read_write_self (fs : FS) (p : FPath) (d : FileData) :
    (fs.write p d).read p = some d := by
  unfold FS.read FS.write
  rw [List.find?_cons_of_pos _ (by simp)]
  rfl

theorem FS.read_write_ne (fs : FS) (p q : FPath) (d : FileData) (h : q ≠ p) :
    (fs.write p d).read q = fs.read q := by
  unfold FS.read FS.write
  rw [List.find?_cons_of_neg _ (by simp [Ne.symm h])]
  rw [find?_filter_of_imp]
  intro x hx
  rw [decide_eq_true_eq] at hx
  rw [decide_eq_true_eq, hx]
  exact h

theorem FS.write_write (fs : FS) (p : FPath) (a b : FileData) :
    (fs.write p a).write p b = fs.write p b := by
  unfold FS.write
  have h1 : (List.filter (fun e => decide (e.1 ≠ p))
      ((p, a) :: List.filter (fun (e : FPath × FileData) => decide (e.1 ≠ p)) fs.files)) =
      List.filter (fun (e : FPath × FileData) => decide (e.1 ≠ p)) fs.files := by
    rw [List.filter_cons_of_neg (by simp), List.filter_filter]
    have : (fun (e : FPath × FileData) => decide (e.1 ≠ p) && decide (e.1 ≠ p)) =
        fun (e : FPath × FileData) => decide (e.1 ≠ p) := by
      funext e
      exact Bool.and_self _
    rw [this]
  rw [h1]

theorem FS.read_mkdirAll (fs : FS) (p q : FPath) :
    (fs.mkdirAll p).read q = fs.read q := rfl

theorem append_singleton_ne {l₁ l₂ : List String} {a b : String} (h : a ≠ b) :
    l₁ ++ [a] ≠ l₂ ++ [b] := by
  intro he
  have hl := congrArg List.getLast? he
  rw [List.getLast?_concat, List.getLast?_concat] at hl
  exact h (Option.some.inj hl)

theorem wasm_ne_gbcrate (n : String) : n ++ ".wasm" ≠ n ++ ".gbcrate" := by
  intro h
  have hd := congrArg String.data h
  rw [String.data_append, String.data_append] at hd
  exact absurd (List.append_cancel_left hd) (by decide)

theorem crate_json_ne_gbcrate (n : String) : "crate.json" ≠ n ++ ".gbcrate" := by
  intro h
  have hd := congrArg String.data h
  rw [String.data_append] at hd
  have h2 := congrArg List.head? (congrArg List.reverse hd)
  rw [List.reverse_append] at h2
  have e1 : ("crate.json" : String).data.reverse = 'n' :: "osj.etarc".data := by decide
  have e2 : (".gbcrate" : String).data.reverse = 'e' :: "tarcbg.".data := by decide
  rw [e1, e2, List.cons_append, List.head?_cons, List.head?_cons] at h2
  exact absurd (Option.some.inj h2) (by decide)

theorem nonempty_concat_isEmpty (l : List String) (a : String) :
    (l ++ [a]).isEmpty = false := by
  cases l <;> rfl

theorem resolve_none_aux (path : FPath) (metadata : Metadata) :
    resolve_project_dir path none metadata = .ok path := by
  unfold resolve_project_dir
  simp only [pathJoin]
  cases hf : (metadata.packages.getD []).find? (fun p =>
      decide (p.manifest_path = some (path ++ ["Cargo.toml"]))) with
  | none =>
    simp [hf, pathParent, nonempty_concat_isEmpty, List.dropLast_concat]
  | some p =>
    have hp := List.find?_some hf
    rw [decide_eq_true_eq] at hp
    simp [hf, hp, pathParent, nonempty_concat_isEmpty, List.dropLast_concat]

/-! ### Claim theorems -/

/-- C4 counterexample data: one package at `/real/Cargo.toml`; the
environment canonicalizes both `/ws/Cargo.toml` and `/real/Cargo.toml`
to the same `/c/Cargo.toml` (e.g. via symlinks), while the raw paths
differ. -/
def canonMeta : Metadata := ⟨some [⟨some "pkgA", some ["", "real", "Cargo.toml"]⟩], none⟩

/-- The environment for the C4 counterexample. -/
def canonEnv : Env :=
  { pathExists := fun _ => false
    canon := fun p =>
      if p = ["", "ws", "Cargo.toml"] then some ["", "c", "Cargo.toml"]
      else if p = ["", "real", "Cargo.toml"] then some ["", "c", "Cargo.toml"]
      else some p
    cwd := none
    spawn := none
    parse := fun _ => none
    build := fun _ _ => .ok ()
    home := none }

/-- C4, counterexample: with no package name set the code compares
`manifest_path` to `search_root/Cargo.toml` raw and never canonicalizes:
in an environment where the two manifest paths canonicalize to the same
path but differ raw, the spec-worded resolver selects the package (project
dir `/real`) while the code ignores it and returns the search root
`/ws`. -/
theorem resolve_none_no_canonicalize_cex :
    resolve_project_dir ["", "ws"] none canonMeta = .ok ["", "ws"] ∧
    resolve_project_dir_spec canonEnv ["", "ws"] canonMeta = .ok ["", "real"] ∧
    (Outcome.ok ["", "ws"] : Outcome FPath) ≠ .ok ["", "real"] :=
  ⟨by decide, by decide, by decide⟩

/-- C4 (amended): with no package name set, `resolve_project_dir` compares
`manifest_path` to `search_root/Cargo.toml` by raw equality only (no
canonicalization on either side); a matching record's manifest path is
therefore exactly `search_root/Cargo.toml`, so in every case — match, no
match, or malformed package list — the resolver returns
`search_root/Cargo.toml`'s parent, i.e. the search root itself, with no
resolved package. -/
theorem resolve_none_returns_search_root (path : FPath) (metadata : Metadata) :
    resolve_project_dir path none metadata = .ok path :=
  resolve_none_aux path metadata

/-- C1, counterexample: the metadata holds a single package `foo`, the
supplied name is `bar`, and resolution does not fail: it returns the
search root `/ws` as a project directory. -/
theorem resolve_missing_name_no_error_cex :
    resolve_project_dir ["", "ws"] (some "bar") sampleMeta = .ok ["", "ws"] := by
  decide

/-- C1 (amended): when no package record's `name` equals the supplied
name, `resolve_project_dir` does not fail with an error: it falls back to
`search_root/Cargo.toml` and returns its parent (the search root) as the
project directory. -/
theorem resolve_missing_name_falls_back (path : FPath) (name : String)
    (metadata : Metadata)
    (h : (metadata.packages.getD []).all (fun p => decide (p.name ≠ some name)) = true) :
    resolve_project_dir path (some name) metadata = .ok path := by
  unfold resolve_project_dir
  have hf : (metadata.packages.getD []).find?
      (fun p => decide (p.name = some name)) = none := by
    rw [List.find?_eq_none]
    intro x hx
    have ha := (List.all_eq_true.mp h) x hx
    rw [decide_eq_true_eq] at ha
    simp [ha]
  simp [hf, pathParent, pathJoin, nonempty_concat_isEmpty, List.dropLast_concat]

/-- Witness for the C1 amended theorem at a concrete input. -/
theorem resolve_missing_name_falls_back_witness :
    ((sampleMeta.packages.getD []).all (fun p => decide (p.name ≠ some "bar")) = true) ∧
    resolve_project_dir ["", "ws"] (some "bar") sampleMeta = .ok ["", "ws"] :=
  ⟨by decide, resolve_missing_name_falls_back ["", "ws"] "bar" sampleMeta (by decide)⟩

/-- C3, counterexample: a run whose process exits with a non-zero code but
with parseable output succeeds (no `ToolchainInvocationError`), and a run
with unparsable output aborts with a panic instead of returning
`MalformedMetadataError` as an error of the current command. -/
theorem get_cargo_metadata_exit_code_cex :
    get_cargo_metadata (some ⟨some "x", false⟩) (fun _ => some sampleMeta) =
      .ok sampleMeta ∧
    get_cargo_metadata (some ⟨some "x", true⟩) (fun _ => none) =
      .panic "serde json unwrap" :=
  ⟨rfl, rfl⟩

/-- C3 (amended): when the process cannot be started the fetch fails with
a returned error; the exit status is never inspected (the outcome is the
same for a zero and a non-zero exit); and output that cannot be parsed
causes a panic (process abort), not a returned error. -/
theorem get_cargo_metadata_amended (parse : String → Option Metadata)
    (st : Option String) (s : String) (b : Bool) :
    get_cargo_metadata none parse = .error "failed to run cargo metadata" ∧
    get_cargo_metadata (some ⟨st, true⟩) parse =
      get_cargo_metadata (some ⟨st, false⟩) parse ∧
    get_cargo_metadata (some ⟨some s, b⟩) (fun _ => none) = .panic "serde json unwrap" := by
  refine ⟨rfl, ?_, rfl⟩
  cases st <;> rfl

/-- C7: a user argument denoting an existing filesystem path is
canonicalized and used as the project directory with no package name; the
metadata-based second stage then leaves that directory unchanged, so it is
never treated as a package name, whatever packages the metadata holds. -/
theorem resolve_existing_path_not_package_name (env : Env) (a : String)
    (abs : FPath) (metadata : Metadata)
    (h1 : env.pathExists (strToPath a) = true)
    (h2 : env.canon (strToPath a) = some abs)
    (h3 : env.metadataFetch = .ok metadata) :
    resolve_full env (some a) = .ok (abs, none) := by
  unfold resolve_full resolve_path_and_package
  simp only [h1, if_true, h2, h3, resolve_none_aux]

/-- Witness for the C7 theorem at a concrete input: `proj` names both an
existing path and could name a package, and is resolved as the path. -/
theorem resolve_existing_path_witness :
    sampleEnv.pathExists (strToPath "proj") = true ∧
    sampleEnv.canon (strToPath "proj") = some ["proj"] ∧
    sampleEnv.metadataFetch = .ok sampleMeta ∧
    resolve_full sampleEnv (some "proj") = .ok (["proj"], none) :=
  ⟨by decide, by decide, rfl,
    resolve_existing_path_not_package_name sampleEnv "proj" ["proj"] sampleMeta
      (by decide) (by decide) rfl⟩

/-- C10: running the `pack` subcommand with `no_copy` set resolves and
builds exactly as the `build` subcommand does, and leaves the filesystem
untouched: no archive is created and no install occurs — the whole
packaging step is skipped, not just the install. -/
theorem run_pack_no_copy_skips_packaging (env : Env) (fs : FS) (release : Bool)
    (package destination_path : Option String) :
    run_pack env fs release true package destination_path =
      (run_build env release package, fs) := by
  unfold run_pack run_build
  cases hr : resolve_full env package with
  | error e => rfl
  | panic e => rfl
  | ok rp =>
    cases hb : env.build rp.1 release with
    | error e => simp [hb]
    | panic e => simp [hb]
    | ok u => cases u; simp [hb]

theorem get_wasm_path_eq (env : Env) (path : FPath) (metadata : Metadata)
    (n : String) (td : FPath) (release : Bool)
    (hn : get_project_name env path metadata = .ok n)
    (ht : metadata.target_directory = some td) :
    get_wasm_path env path release metadata =
      .ok (n ++ ".wasm",
        pathJoin (pathJoin (pathJoin td TARGET) (profileName release)) (n ++ ".wasm")) := by
  unfold get_wasm_path get_target_directory
  simp only [hn, ht]

/-- C8: for a project whose package name resolves to `n` and whose
metadata names a target directory, the artifact paths computed for the
release and the debug profile are
`{target_directory}/{TARGET}/release/{n}.wasm` and
`{target_directory}/{TARGET}/debug/{n}.wasm`: they differ only in the
profile-named segment, and the computed filename `{n}.wasm` is identical
across the two profiles. -/
theorem get_wasm_path_profiles_differ_only_in_segment (env : Env) (path : FPath)
    (metadata : Metadata) (n : String) (td : FPath)
    (hn : get_project_name env path metadata = .ok n)
    (ht : metadata.target_directory = some td) :
    get_wasm_path env path true metadata =
      .ok (n ++ ".wasm", pathJoin (pathJoin (pathJoin td TARGET) "release") (n ++ ".wasm")) ∧
    get_wasm_path env path false metadata =
      .ok (n ++ ".wasm", pathJoin (pathJoin (pathJoin td TARGET) "debug") (n ++ ".wasm")) :=
  ⟨get_wasm_path_eq env path metadata n td true hn ht,
   get_wasm_path_eq env path metadata n td false hn ht⟩

/-- Witness for the C8 theorem at a concrete input. -/
theorem get_wasm_path_profiles_witness :
    get_project_name sampleEnv ["", "proj"] sampleMeta = .ok "foo" ∧
    sampleMeta.target_directory = some ["", "t"] ∧
    get_wasm_path sampleEnv ["", "proj"] true sampleMeta =
      .ok ("foo" ++ ".wasm",
        pathJoin (pathJoin (pathJoin ["", "t"] TARGET) "release") ("foo" ++ ".wasm")) ∧
    get_wasm_path sampleEnv ["", "proj"] false sampleMeta =
      .ok ("foo" ++ ".wasm",
        pathJoin (pathJoin (pathJoin ["", "t"] TARGET) "debug") ("foo" ++ ".wasm")) :=
  ⟨by decide, rfl,
   (get_wasm_path_profiles_differ_only_in_segment sampleEnv ["", "proj"] sampleMeta
      "foo" ["", "t"] (by decide) rfl).1,
   (get_wasm_path_profiles_differ_only_in_segment sampleEnv ["", "proj"] sampleMeta
      "foo" ["", "t"] (by decide) rfl).2⟩

/-- C5: a successful pack of a project with resolved package name `n`
produces the archive at `{artifact_parent_dir}/{n}.gbcrate` (the parent
directory of the located artifact), overwriting whatever file was at that
path in the arbitrary starting filesystem, and the finalized archive holds
exactly two entries in fixed order: first `{n}.wasm` with the full bytes
of the compiled binary, then `crate.json` with the verbatim bytes of
`project_directory/crate.json`. -/
theorem pack_crate_success_archive_layout (env : Env) (fs : FS) (path : FPath)
    (release : Bool) (metadata : Metadata) (n : String) (td : FPath)
    (w j : List Nat)
    (hm : env.metadataFetch = .ok metadata)
    (hn : get_project_name env path metadata = .ok n)
    (ht : metadata.target_directory = some td)
    (hw : fs.read (pathJoin (pathJoin (pathJoin td TARGET) (profileName release))
        (n ++ ".wasm")) = some (.raw w))
    (hj : fs.read (pathJoin path "crate.json") = some (.raw j)) :
    pack_crate env fs path release =
      (.ok (pathJoin (pathJoin (pathJoin td TARGET) (profileName release)) (n ++ ".gbcrate")),
       fs.write (pathJoin (pathJoin (pathJoin td TARGET) (profileName release)) (n ++ ".gbcrate"))
         (.zipArchive [(n ++ ".wasm", w), ("crate.json", j)])) := by
  have hwp := get_wasm_path_eq env path metadata n td release hn ht
  have hne1 : pathJoin (pathJoin (pathJoin td TARGET) (profileName release)) (n ++ ".wasm") ≠
      pathJoin (pathJoin (pathJoin td TARGET) (profileName release)) (n ++ ".gbcrate") := by
    unfold pathJoin
    exact append_singleton_ne (wasm_ne_gbcrate n)
  have hne2 : pathJoin path "crate.json" ≠
      pathJoin (pathJoin (pathJoin td TARGET) (profileName release)) (n ++ ".gbcrate") := by
    unfold pathJoin
    exact append_singleton_ne (crate_json_ne_gbcrate n)
  have r1 : (fs.write
      (pathJoin (pathJoin (pathJoin td TARGET) (profileName release)) (n ++ ".gbcrate"))
      (.raw [])).read
      (pathJoin (pathJoin (pathJoin td TARGET) (profileName release)) (n ++ ".wasm")) =
      some (.raw w) := by
    rw [FS.read_write_ne _ _ _ _ hne1]
    exact hw
  have r2 : (fs.write
      (pathJoin (pathJoin (pathJoin td TARGET) (profileName release)) (n ++ ".gbcrate"))
      (.raw [])).read (pathJoin path "crate.json") = some (.raw j) := by
    rw [FS.read_write_ne _ _ _ _ hne2]
    exact hj
  have hdl : (pathJoin (pathJoin (pathJoin td TARGET) (profileName release))
      (n ++ ".wasm")).dropLast = pathJoin (pathJoin td TARGET) (profileName release) := by
    unfold pathJoin
    exact List.dropLast_concat
  simp only [pack_crate, hm, hwp, hn, hdl, r1, r2, FileData.asBytes, Option.some_bind,
    FS.write_write]

/-- Witness for the C5 theorem at a concrete input. -/
theorem pack_crate_success_archive_layout_witness :
    sampleEnv.metadataFetch = .ok sampleMeta ∧
    get_project_name sampleEnv ["", "proj"] sampleMeta = .ok "foo" ∧
    sampleMeta.target_directory = some ["", "t"] ∧
    sampleFS.read (pathJoin (pathJoin (pathJoin ["", "t"] TARGET) (profileName false))
      ("foo" ++ ".wasm")) = some (.raw [1, 2]) ∧
    sampleFS.read (pathJoin ["", "proj"] "crate.json") = some (.raw [3]) ∧
    pack_crate sampleEnv sampleFS ["", "proj"] false =
      (.ok (pathJoin (pathJoin (pathJoin ["", "t"] TARGET) (profileName false))
         ("foo" ++ ".gbcrate")),
       sampleFS.write (pathJoin (pathJoin (pathJoin ["", "t"] TARGET) (profileName false))
           ("foo" ++ ".gbcrate"))
         (.zipArchive [("foo" ++ ".wasm", [1, 2]), ("crate.json", [3])])) :=
  ⟨rfl, by decide, rfl, by decide, by decide,
   pack_crate_success_archive_layout sampleEnv sampleFS ["", "proj"] false sampleMeta
     "foo" ["", "t"] [1, 2] [3] rfl (by decide) rfl (by decide) (by decide)⟩

/-- The filesystem for the C2 counterexample: the project manifest is
present but the compiled artifact is absent (pack before build). -/
def brokenFS : FS := ⟨[(["", "proj", "crate.json"], .raw [7])], []⟩

/-- C2, counterexample: with the artifact absent, `pack_crate` fails — but
a file (the empty, just-created archive) exists at the archive's target
path afterwards, contradicting that no archive file is created or left
behind in a partial state; the failure is moreover a panic from
`File::open(...).expect(...)`, not a returned error. -/
theorem pack_missing_artifact_leaves_file_cex :
    brokenFS.read ["", "t", "wasm32-unknown-unknown", "debug", "foo.gbcrate"] = none ∧
    pack_crate sampleEnv brokenFS ["", "proj"] false =
      (.panic "cant open wasm file",
       brokenFS.write ["", "t", "wasm32-unknown-unknown", "debug", "foo.gbcrate"] (.raw [])) ∧
    (pack_crate sampleEnv brokenFS ["", "proj"] false).2.read
      ["", "t", "wasm32-unknown-unknown", "debug", "foo.gbcrate"] = some (.raw []) :=
  ⟨by decide, by decide, by decide⟩

/-- C2 (amended): when the compiled artifact is absent, `pack_crate` fails
(with the `cant open wasm file` panic rather than a returned
`ArtifactNotFoundError`), but only after `File::create` has already run:
an empty archive file is created at the archive's target path and is left
behind there in a partial state. -/
theorem pack_missing_artifact_panics_leaves_empty_archive (env : Env) (fs : FS)
    (path : FPath) (release : Bool) (metadata : Metadata) (n : String) (td : FPath)
    (hm : env.metadataFetch = .ok metadata)
    (hn : get_project_name env path metadata = .ok n)
    (ht : metadata.target_directory = some td)
    (hw : fs.read (pathJoin (pathJoin (pathJoin td TARGET) (profileName release))
        (n ++ ".wasm")) = none) :
    pack_crate env fs path release =
      (.panic "cant open wasm file",
       fs.write (pathJoin (pathJoin (pathJoin td TARGET) (profileName release))
         (n ++ ".gbcrate")) (.raw [])) ∧
    (fs.write (pathJoin (pathJoin (pathJoin td TARGET) (profileName release))
        (n ++ ".gbcrate")) (.raw [])).read
      (pathJoin (pathJoin (pathJoin td TARGET) (profileName release)) (n ++ ".gbcrate")) =
      some (.raw []) := by
  have hwp := get_wasm_path_eq env path metadata n td release hn ht
  have hne1 : pathJoin (pathJoin (pathJoin td TARGET) (profileName release)) (n ++ ".wasm") ≠
      pathJoin (pathJoin (pathJoin td TARGET) (profileName release)) (n ++ ".gbcrate") := by
    unfold pathJoin
    exact append_singleton_ne (wasm_ne_gbcrate n)
  have hdl : (pathJoin (pathJoin (pathJoin td TARGET) (profileName release))
      (n ++ ".wasm")).dropLast = pathJoin (pathJoin td TARGET) (profileName release) := by
    unfold pathJoin
    exact List.dropLast_concat
  have r1 : (fs.write
      (pathJoin (pathJoin (pathJoin td TARGET) (profileName release)) (n ++ ".gbcrate"))
      (.raw [])).read
      (pathJoin (pathJoin (pathJoin td TARGET) (profileName release)) (n ++ ".wasm")) =
      none := by
    rw [FS.read_write_ne _ _ _ _ hne1]
    exact hw
  constructor
  · simp only [pack_crate, hm, hwp, hn, hdl, r1, Option.none_bind]
  · exact FS.read_write_self _ _ _

/-- Witness for the C2 amended theorem at a concrete input. -/
theorem pack_missing_artifact_witness :
    sampleEnv.metadataFetch = .ok sampleMeta ∧
    get_project_name sampleEnv ["", "proj"] sampleMeta = .ok "foo" ∧
    sampleMeta.target_directory = some ["", "t"] ∧
    brokenFS.read (pathJoin (pathJoin (pathJoin ["", "t"] TARGET) (profileName false))
      ("foo" ++ ".wasm")) = none ∧
    (pack_crate sampleEnv brokenFS ["", "proj"] false =
      (.panic "cant open wasm file",
       brokenFS.write (pathJoin (pathJoin (pathJoin ["", "t"] TARGET) (profileName false))
         ("foo" ++ ".gbcrate")) (.raw [])) ∧
     (brokenFS.write (pathJoin (pathJoin (pathJoin ["", "t"] TARGET) (profileName false))
         ("foo" ++ ".gbcrate")) (.raw [])).read
       (pathJoin (pathJoin (pathJoin ["", "t"] TARGET) (profileName false))
         ("foo" ++ ".gbcrate")) = some (.raw [])) :=
  ⟨rfl, by decide, rfl, by decide,
   pack_missing_artifact_panics_leaves_empty_archive sampleEnv brokenFS ["", "proj"]
     false sampleMeta "foo" ["", "t"] rfl (by decide) rfl (by decide)⟩

/-- C6: installing from an archive path that does not exist fails with the
not-found error — the existence check runs before the copy — and the
filesystem is returned unchanged: no directory is created and no file is
copied. -/
theorem copy_crate_missing_archive_no_writes (fs : FS) (crate_path dest : FPath)
    (f : String)
    (hf : fileName crate_path = some f)
    (he : fs.existsPath crate_path = false) :
    copy_crate fs crate_path dest = (.error "crate not found", fs) := by
  unfold copy_crate
  simp only [hf, he, Bool.false_eq_true, if_false]

/-- Witness for the C6 theorem at a concrete input. -/
theorem copy_crate_missing_archive_witness :
    fileName ["x.gbcrate"] = some "x.gbcrate" ∧
    sampleFS.existsPath ["x.gbcrate"] = false ∧
    copy_crate sampleFS ["x.gbcrate"] ["d"] = (.error "crate not found", sampleFS) :=
  ⟨by decide, by decide,
   copy_crate_missing_archive_no_writes sampleFS ["x.gbcrate"] ["d"] "x.gbcrate"
     (by decide) (by decide)⟩

/-- C9: installing an existing archive into any destination directory
creates the destination directory and all its missing ancestors
(`FS.mkdirAll dest`) and copies the archive's full contents to
`destination/{archive_filename}`, overwriting any file there; the
resulting filesystem is exactly the input plus the directory chain plus
that one written file. -/
theorem copy_crate_creates_dirs_and_copies (fs : FS) (crate_path dest : FPath)
    (f : String) (d : FileData)
    (hf : fileName crate_path = some f)
    (hr : fs.read crate_path = some d) :
    copy_crate fs crate_path dest = (.ok (), (fs.mkdirAll dest).write (pathJoin dest f) d) := by
  unfold copy_crate
  have he : fs.existsPath crate_path = true := by
    unfold FS.existsPath
    rw [hr]
    rfl
  have hpp : pathParent (pathJoin dest f) = some dest := by
    unfold pathParent pathJoin
    rw [nonempty_concat_isEmpty]
    simp [List.dropLast_concat]
  have hr1 : (fs.mkdirAll dest).read crate_path = some d := by
    rw [FS.read_mkdirAll]
    exact hr
  simp only [hf, he, if_true, hpp, hr1]

/-- Witness for the C9 theorem at a concrete input: the destination
directory chain `d/e` does not exist beforehand and is created. -/
theorem copy_crate_creates_dirs_witness :
    fileName ["", "proj", "crate.json"] = some "crate.json" ∧
    sampleFS.read ["", "proj", "crate.json"] = some (.raw [3]) ∧
    sampleFS.dirs = [] ∧
    copy_crate sampleFS ["", "proj", "crate.json"] ["d", "e"] =
      (.ok (), (sampleFS.mkdirAll ["d", "e"]).write (pathJoin ["d", "e"] "crate.json")
        (.raw [3])) :=
  ⟨by decide, by decide, rfl,
   copy_crate_creates_dirs_and_copies sampleFS ["", "proj", "crate.json"] ["d", "e"]
     "crate.json" (.raw [3]) (by decide) (by decide)⟩
